import Mathlib

/-!
# Verification of hats-import pipeline behaviors

Shallow embedding of selected operations of the `hats-import` /
`hipscat-import` repository, together with proofs settling the frozen
behavioral claims about them.

Each definition is translated from the named source function; `spec`-suffixed
definitions instead transcribe the specification's words, for refinement
comparison.
-/

namespace HatsImport

/-! ## FITS reader chunking (`hats_import/catalog/file_readers/fits.py`, `FitsReader.read`)

The reader loops `for i_start in range(0, len(table), self.chunksize)` and
yields `table[i_start : i_start + self.chunksize]`.  We model the sequence of
chunk row counts produced for a table of `n` rows with chunk size `c`.
A Python `range` with step 0 raises, so the `c = 0` case is modelled as
producing no chunks; the claim only concerns `c > 0`. -/

/-- Row counts of the chunks yielded by `FitsReader.read` for an `n`-row table
with chunk size `c`: slice `[i : i+c]` has `min c (n - i)` rows, and the loop
advances by `c` while rows remain. -/
def fitsChunkSizes : Nat → Nat → List Nat
  | _, 0 => []
  | 0, _ + 1 => []
  | n + 1, c + 1 => min (c + 1) (n + 1) :: fitsChunkSizes (n + 1 - (c + 1)) (c + 1)

theorem fitsChunkSizes_sum (c : Nat) : ∀ n, (fitsChunkSizes n (c + 1)).sum = n := by
  intro n
  induction n using Nat.strong_induction_on with
  | _ n ih =>
    match n with
    | 0 => simp [fitsChunkSizes]
    | Nat.succ m =>
      rw [fitsChunkSizes]
      have hlt : m + 1 - (c + 1) < m + 1 := by omega
      rw [List.sum_cons, ih _ hlt]
      omega

theorem fitsChunkSizes_le (c : Nat) : ∀ n, ∀ k ∈ fitsChunkSizes n (c + 1), k ≤ c + 1 := by
  intro n
  induction n using Nat.strong_induction_on with
  | _ n ih =>
    match n with
    | 0 => simp [fitsChunkSizes]
    | Nat.succ m =>
      rw [fitsChunkSizes]
      intro k hk
      rcases List.mem_cons.mp hk with h | h
      · omega
      · exact ih _ (by omega) _ h

theorem fitsChunkSizes_length (c : Nat) :
    ∀ n, (fitsChunkSizes n (c + 1)).length = (n + (c + 1) - 1) / (c + 1) := by
  intro n
  induction n using Nat.strong_induction_on with
  | _ n ih =>
    match n with
    | 0 =>
      have he : fitsChunkSizes 0 (c + 1) = [] := by simp [fitsChunkSizes]
      rw [he, show 0 + (c + 1) - 1 = c from by omega, Nat.div_eq_of_lt (by omega)]
      rfl
    | Nat.succ m =>
      rw [fitsChunkSizes]
      have hlt : m + 1 - (c + 1) < m + 1 := by omega
      rw [List.length_cons, ih _ hlt]
      rcases Nat.lt_or_ge m c with h | h
      · have h1 : m + 1 - (c + 1) = 0 := by omega
        have h2 : (m + 1 + (c + 1) - 1) / (c + 1) = 1 :=
          Nat.div_eq_of_lt_le (by omega) (by omega)
        rw [h1, h2, show 0 + (c + 1) - 1 = c from by omega, Nat.div_eq_of_lt (by omega)]
      · have h1 : m + 1 - (c + 1) + (c + 1) - 1 = m := by omega
        have h2 : m + 1 + (c + 1) - 1 = m + (c + 1) := by omega
        rw [h1, h2, Nat.add_div_right _ (by omega)]

/-- C8: for a FITS table of `n` rows read with chunk size `c > 0`, the reader
yields exactly `⌈n / c⌉ = (n + c - 1) / c` chunks, each of at most `c` rows,
whose row counts sum to exactly `n`. -/
theorem c8_fits_reader_chunking (n c : Nat) (hc : 0 < c) :
    (fitsChunkSizes n c).length = (n + c - 1) / c ∧
      (∀ k ∈ fitsChunkSizes n c, k ≤ c) ∧ (fitsChunkSizes n c).sum = n := by
  match c, hc with
  | c + 1, _ =>
    exact ⟨fitsChunkSizes_length c n, fitsChunkSizes_le c n, fitsChunkSizes_sum c n⟩

/-- Witness for C8 at `n = 7`, `c = 3`: chunks `[3, 3, 1]`. -/
theorem c8_fits_reader_chunking_witness :
    0 < 3 ∧
      ((fitsChunkSizes 7 3).length = (7 + 3 - 1) / 3 ∧
        (∀ k ∈ fitsChunkSizes 7 3, k ≤ 3) ∧ (fitsChunkSizes 7 3).sum = 7) :=
  ⟨by decide, c8_fits_reader_chunking 7 3 (by decide)⟩

/-! ## Nest-light-curve argument validation
(`hats_import/nest_light_curves/arguments.py`, `NestLightCurveArguments._check_arguments`)

The source computes

    source_columns = (
        self.source_nested_columns
        if self.source_nested_columns is not None
        else set() | set([self.source_object_id_column])
    )

By Python conditional-expression precedence, the union with
`source_object_id_column` belongs to the `else` branch only: when
`source_nested_columns` is supplied, `source_columns` is just that set.
Python sets are modelled as deduplicated lists; name order inside the set is
irrelevant to the emptiness tests below. -/

/-- The set of source-catalog columns that `_check_arguments` validates against
the source schema, exactly as the conditional expression groups it. -/
def sourceColumnsToCheck (sourceNestedColumns : Option (List String))
    (sourceObjectIdColumn : String) : List String :=
  match sourceNestedColumns with
  | some cols => cols.dedup
  | none => [sourceObjectIdColumn]

/-- The source-column validation of `_check_arguments`: if the checked set is
non-empty and some of its members are missing from the source schema, raise a
`ValueError` listing them. -/
def checkSourceColumns (sourceNestedColumns : Option (List String))
    (sourceObjectIdColumn : String) (sourceSchemaNames : List String) :
    Except String Unit :=
  let sourceColumns := sourceColumnsToCheck sourceNestedColumns sourceObjectIdColumn
  if sourceColumns.isEmpty then .ok ()
  else
    let missingColumns := sourceColumns.filter (fun c => !sourceSchemaNames.contains c)
    if missingColumns.isEmpty then .ok ()
    else .error ("Some columns not found in source catalog: " ++
      String.intercalate ", " missingColumns)

/-- C2 evaluated at the failing input: `source_nested_columns = ["mjd"]` is
supplied and entirely present in the source schema, while
`source_object_id_column = "object_id"` is absent from the schema — yet the
validation raises nothing, because the supplied nested-column set replaces
(rather than joins) the id column in the checked set.  The claim requires a
configuration error listing `"object_id"` here. -/
theorem c2_code_bug_eval :
    checkSourceColumns (some ["mjd"]) "object_id" ["mjd", "ra", "dec"] = .ok () ∧
      "object_id" ∉ ["mjd", "ra", "dec"] ∧
      checkSourceColumns none "object_id" ["mjd", "ra", "dec"] =
        .error "Some columns not found in source catalog: object_id" := by
  refine ⟨rfl, by decide, rfl⟩

/-! ## SOAP partial-result rows (`hipscat_import/soap/map_reduce.py`, `_write_count_results`)

The source computes the destination directory bucket from the *order* column:

    dirs = [int(order / 10_000) * 10_000 if order >= 0 else -1 for order, _, _ in results]

and the join directory bucket from the *join order*:

    dataframe["join_Dir"] = int(dataframe["join_Norder"] / 10_000) * 10_000

(`int(...)` of a pandas Series is only defined for a single-element series, so
the frame is only written when `results` has exactly one row). -/

/-- The derived dir bucket of the data model: `floor(pixel / 10,000) * 10,000`. -/
def dirBucket (pixel : Nat) : Nat := pixel / 10000 * 10000

/-- One row of a SOAP per-source partial result file. -/
structure SoapResultRow where
  Norder : Int
  Dir : Int
  Npix : Int
  join_Norder : Int
  join_Dir : Int
  join_Npix : Int
  num_rows : Int
deriving DecidableEq, Repr

/-- `_write_count_results`: rows of the partial-result frame for source pixel
`(sourceOrder, sourcePixel)` from `results` triples
`(destination order, destination pixel-or-sentinel, matched count)`. -/
def writeCountResults (sourceOrder sourcePixel : Nat)
    (results : List (Int × Int × Int)) : Except String (List SoapResultRow) :=
  let dirs : List Int :=
    results.map (fun r => if 0 ≤ r.1 then Int.ofNat (r.1.toNat / 10000 * 10000) else -1)
  if results.length ≠ 1 then .error "TypeError: cannot convert the series to int"
  else
    let joinDir : Int := Int.ofNat (sourceOrder / 10000 * 10000)
    .ok (List.zipWith
      (fun (r : Int × Int × Int) (d : Int) =>
        { Norder := r.1, Dir := d, Npix := r.2.1,
          join_Norder := Int.ofNat sourceOrder, join_Dir := joinDir,
          join_Npix := Int.ofNat sourcePixel, num_rows := r.2.2 })
      results dirs)

/-- C5 evaluated at the failing input: a single destination row
`(order 7, pixel 12345, 10 matches)` for source pixel `(2, 23456)` is written
with `Dir = int(7 / 10000) * 10000 = 0` and
`join_Dir = int(2 / 10000) * 10000 = 0`, where the dir-bucket rule of the data
model demands `Dir = 10000` (from `Npix = 12345`) and `join_Dir = 20000`
(from `join_Npix = 23456`): the code buckets by order, not by pixel. -/
theorem c5_code_bug_eval :
    writeCountResults 2 23456 [(7, 12345, 10)] =
      .ok [{ Norder := 7, Dir := 0, Npix := 12345,
             join_Norder := 2, join_Dir := 0, join_Npix := 23456, num_rows := 10 }] ∧
      dirBucket 12345 = 10000 ∧ dirBucket 23456 = 20000 := by
  refine ⟨rfl, rfl, rfl⟩

/-! ## Legacy reduce (`hipscat_import/map_reduce.py`, `reduce_pixel_shards`)

Shard directories are modelled by the row counts of the shard files they hold;
concatenation length is the sum of shard lengths, and sorting by `id_column`
preserves length, so only row counts are tracked.  The module imports
`healpy`, `numpy`, `pandas` and `hipscat` helpers but never imports `shutil`,
so the input-deletion loop evaluates an unbound name. -/

/-- The per-pixel shard gathering loop: `get_directory_contents` raises when an
origin pixel's shard directory is absent; otherwise its shard tables are
appended in order. -/
def gatherShardTables (shardDirs : List (Nat × List Nat)) :
    List Nat → Except String (List Nat)
  | [] => .ok []
  | p :: rest =>
    match shardDirs.lookup p with
    | none => .error "FileNotFoundError: shard directory not found"
    | some files =>
      match gatherShardTables shardDirs rest with
      | .ok ts => .ok (files ++ ts)
      | .error e => .error e

/-- `reduce_pixel_shards`: concatenate the origin pixels' shards, sort if an id
column is configured, verify the row count, write the final file (the returned
row count), then delete the shard inputs — where the deletion loop trips over
the missing `shutil` import on its first iteration. -/
def reducePixelShards (shardDirs : List (Nat × List Nat))
    (originPixelNumbers : List Nat)
    (destinationPixelOrder destinationPixelNumber destinationPixelSize : Nat)
    (_sortByIdColumn : Bool) (deleteInputFiles : Bool := true) :
    Except String Nat :=
  match gatherShardTables shardDirs originPixelNumbers with
  | .error e => .error e
  | .ok tables =>
    if tables.isEmpty then .error "ValueError: No objects to concatenate"
    else
      let merged := tables.sum
      let rowsWritten := merged
      if rowsWritten ≠ destinationPixelSize then
        .error ("ValueError: Unexpected number of objects at pixel (" ++
          toString destinationPixelOrder ++ ", " ++ toString destinationPixelNumber ++ ")")
      else
        -- merged_table.to_parquet(destination_file) succeeds here; then
        -- `for pixel in origin_pixel_numbers: shutil.rmtree(...)` evaluates the
        -- unbound name `shutil`
        if deleteInputFiles then
          match originPixelNumbers with
          | [] => .ok rowsWritten
          | _ :: _ => .error "NameError: shutil is not defined"
        else .ok rowsWritten

/-- C4 evaluated at the failing input: one origin pixel `44` holding a single
3-row shard, destination size 3 (the row count matches exactly).  With the
default `delete_input_files=True` the call raises `NameError` (the module
never imports `shutil`) instead of deleting the inputs and returning
normally; with deletion disabled the same call succeeds, confirming the
failure is exactly the deletion step. -/
theorem c4_code_bug_eval :
    reducePixelShards [(44, [3])] [44] 0 44 3 false true =
        .error "NameError: shutil is not defined" ∧
      reducePixelShards [(44, [3])] [44] 0 44 3 false false = .ok 3 := by
  refine ⟨rfl, rfl⟩

/-! ## Nest-light-curve reduce step
(`hats_import/nest_light_curves/map_reduce.py`, `_reduce_partitions` and
`_check_destination_file`)

The filesystem is modelled by the row counts of the destination files already
written and by which destination pixels still have a shard-cache directory.
The row count produced by reading a bucket's shards and nesting them beneath
the object rows (`join_nested` + `dropna`, an external computation over the
shard data) is abstracted as a function of the destination bucket; sorting by
`nested_sort_column` preserves the count. -/

/-- Destination files written (bucket ↦ row count) and shard-cache directories
still present, under the pipeline's intermediate path convention. -/
structure NclFileState where
  outputs : List ((Nat × Nat) × Nat)
  shardDirs : List (Nat × Nat)
deriving DecidableEq, Repr

/-- `_check_destination_file`: the destination file must exist and its parquet
metadata must report exactly the expected row count, else raise; on success,
when `delete_input_files` is set, the bucket's shard-cache directory is
removed. -/
def checkDestinationFile (fs : NclFileState) (destinationPixel : Nat × Nat)
    (destinationPixelSize : Nat) (deleteInputFiles : Bool) :
    Except String NclFileState :=
  match fs.outputs.lookup destinationPixel with
  | none => .error "FileNotFoundError: Reduced file not found where expected"
  | some rowsWritten =>
    if rowsWritten ≠ destinationPixelSize then
      .error "ValueError: Unexpected number of objects in pixel data"
    else
      .ok (if deleteInputFiles then
        { fs with shardDirs := fs.shardDirs.filter (fun p => p ≠ destinationPixel) }
      else fs)

/-- `_reduce_partitions`: per `(order, pixel, row_count)` entry of the bucket
list, first try `_check_destination_file` inside `try:` — on success the
source executes `return`, ending the whole function, not just the current
iteration; on any failure (`except: pass`) the bucket's shards are read back
(raising when the shard directory is absent), nested beneath the object rows,
written, and checked again (fatal mismatch). -/
def nclReducePartitions (nestedRowCount : Nat × Nat → Nat) (deleteInputFiles : Bool)
    (pixelList : List ((Nat × Nat) × Nat)) (fs : NclFileState) :
    Except String NclFileState :=
  match pixelList with
  | [] => .ok fs
  | (destinationPixel, rowCount) :: rest =>
    match checkDestinationFile fs destinationPixel rowCount deleteInputFiles with
    | .ok fsSkipped => .ok fsSkipped
    | .error _ =>
      if fs.shardDirs.contains destinationPixel then
        let fsWritten : NclFileState :=
          { fs with outputs := (destinationPixel, nestedRowCount destinationPixel) ::
              fs.outputs.filter (fun e => e.1 ≠ destinationPixel) }
        match checkDestinationFile fsWritten destinationPixel rowCount deleteInputFiles with
        | .ok fsDone => nclReducePartitions nestedRowCount deleteInputFiles rest fsDone
        | .error e => .error e
      else .error "FileNotFoundError: shard directory not found"

/-- C1 evaluated at the failing input: two buckets with positive expected
counts, `(1,44) ↦ 5` already on disk with the correct size (a resumed task)
and `(1,45) ↦ 7` still to be computed from its shards (which would nest to
exactly 7 rows).  The reduce step returns successfully after the first
bucket's resume shortcut — the `return` inside the loop ends the whole
function — leaving bucket `(1,45)` with no output file at all, where the
claim requires every bucket to end with a correctly-sized output. -/
theorem c1_code_bug_eval :
    nclReducePartitions (fun p => if p = (1, 44) then 5 else 7) true
        [((1, 44), 5), ((1, 45), 7)]
        { outputs := [((1, 44), 5)], shardDirs := [(1, 44), (1, 45)] } =
      .ok { outputs := [((1, 44), 5)], shardDirs := [(1, 45)] } ∧
      ([((1, 44), 5)] : List ((Nat × Nat) × Nat)).lookup (1, 45) = none ∧
      nclReducePartitions (fun p => if p = (1, 44) then 5 else 7) true
          [((1, 44), 5), ((1, 45), 7)]
          { outputs := [], shardDirs := [(1, 44), (1, 45)] } =
        .ok { outputs := [((1, 45), 7), ((1, 44), 5)], shardDirs := [] } := by
  refine ⟨rfl, rfl, rfl⟩

/-! ## Resume-plan startup safety
(`hipscat_import/pipeline_resume_plan.py`, `PipelineResumePlan.safe_to_resume`
and `PipelineResumePlan.clean_resume_files`)

The temp directory is modelled as `none` (absent) or `some entries`
(present, holding `entries`). -/

/-- `file_io.directory_has_contents`. -/
def directoryHasContents : Option (List String) → Bool
  | none => false
  | some entries => !entries.isEmpty

/-- `clean_resume_files`: the whole `tmp_path` subtree is removed only when
`delete_resume_log_files` is set. -/
def cleanResumeFiles (deleteResumeLogFiles : Bool) (tmpPath : Option (List String)) :
    Option (List String) :=
  if deleteResumeLogFiles then none else tmpPath

/-- `file_io.make_directory(..., exist_ok=True)`. -/
def makeDirectoryExistOk : Option (List String) → Option (List String)
  | none => some []
  | some entries => some entries

/-- `safe_to_resume`: if `tmp_path` has contents and `resume` is false,
delegate to `clean_resume_files`; if `resume` is true, print a message and
reuse the contents; then (re-)create `tmp_path`. -/
def safeToResume (resume deleteResumeLogFiles : Bool)
    (tmpPath : Option (List String)) : Option (List String) :=
  let afterCheck :=
    if directoryHasContents tmpPath then
      if !resume then cleanResumeFiles deleteResumeLogFiles tmpPath
      else tmpPath
    else tmpPath
  makeDirectoryExistOk afterCheck

/-- C6 counterexample: with `resume = false` but
`delete_resume_log_files = false`, a `tmp_path` holding an old marker file
keeps its contents through `safe_to_resume`, contradicting the claim that for
every configuration the old contents are deleted when `resume` is false. -/
theorem c6_counterexample :
    safeToResume false false (some ["old_marker"]) = some ["old_marker"] ∧
      safeToResume false false (some ["old_marker"]) ≠ some [] := by
  refine ⟨rfl, by decide⟩

/-- C6 amended: for a `tmp_path` with contents, `safe_to_resume` deletes the
old contents (and re-creates the directory empty) exactly when `resume` is
false *and* `delete_resume_log_files` is true; with `resume` true, or with
`delete_resume_log_files` false, the contents are left in place; `tmp_path`
exists afterwards in every case. -/
theorem c6_amended_safe_to_resume (resume deleteResumeLogFiles : Bool)
    (entries : List String) (h : entries ≠ []) :
    safeToResume resume deleteResumeLogFiles (some entries) =
      (if resume = false ∧ deleteResumeLogFiles = true then some [] else some entries) := by
  have hne : entries.isEmpty = false := by
    cases entries with
    | nil => exact absurd rfl h
    | cons a l => rfl
  cases resume <;> cases deleteResumeLogFiles <;>
    simp [safeToResume, directoryHasContents, cleanResumeFiles, makeDirectoryExistOk, hne]

/-- Witness for C6 amended at a one-entry directory, both flag settings. -/
theorem c6_amended_safe_to_resume_witness :
    (["old_marker"] : List String) ≠ [] ∧
      safeToResume false true (some ["old_marker"]) =
        (if False = false ∧ True = true then some [] else some ["old_marker"]) ∧
      safeToResume true false (some ["old_marker"]) =
        (if True = false ∧ False = true then some [] else some ["old_marker"]) :=
  ⟨by decide,
    c6_amended_safe_to_resume false true ["old_marker"] (by decide),
    c6_amended_safe_to_resume true false ["old_marker"] (by decide)⟩

/-! ## Verifier constructed truth schema
(`hats_import/verification/run_verification.py`, `Verifier._construct_truth_schema`)

A pyarrow schema is modelled as an ordered field list (name and type) plus
key/value metadata; `pyarrow.Schema.equals` compares both, so schema equality
is structural equality of this record.  `schema.field(name)` and
`schema.metadata[b"pandas"]` raise when absent, so the construction is
`Option`-valued. -/

/-- A pyarrow schema field: name and data type. -/
structure PaField where
  name : String
  dtype : String
deriving DecidableEq, Repr

/-- A pyarrow schema: ordered fields plus key/value metadata. -/
structure PaSchema where
  fields : List PaField
  metadata : List (String × String)
deriving DecidableEq, Repr

/-- `hats.pixel_math.spatial_index.SPATIAL_INDEX_COLUMN`. -/
def SPATIAL_INDEX_COLUMN : String := "_healpix_29"

/-- `schema.field(name)`: the first field of that name, if any. -/
def schemaField (s : PaSchema) (n : String) : Option PaField :=
  s.fields.find? (fun f => f.name == n)

/-- `Verifier._construct_truth_schema`: partition fields (`Norder`, `Dir`,
`Npix`) are looked up in the common schema; the spatial-index column, when the
common schema has it, joins the excluded name set and its field is collected
separately; the truth source (`input_truth_schema or common_metadata_schema`)
contributes its remaining fields; the result is
`hats_idx_fields + input_truth_fields + hats_partition_fields` carrying only
the common schema's `pandas` metadata entry. -/
def constructTruthSchema (inputTruthSchema : Option PaSchema)
    (commonMetadataSchema : PaSchema) : Option PaSchema :=
  let hatsColsBase := ["Norder", "Dir", "Npix"]
  match hatsColsBase.mapM (schemaField commonMetadataSchema) with
  | none => none
  | some hatsPartitionFields =>
    let spatialPresent :=
      (commonMetadataSchema.fields.map PaField.name).contains SPATIAL_INDEX_COLUMN
    let hatsCols :=
      if spatialPresent then hatsColsBase ++ [SPATIAL_INDEX_COLUMN] else hatsColsBase
    let hatsIdxFields :=
      if spatialPresent then (schemaField commonMetadataSchema SPATIAL_INDEX_COLUMN).toList
      else []
    let inputTruth := inputTruthSchema.getD commonMetadataSchema
    let inputTruthFields := inputTruth.fields.filter (fun f => !hatsCols.contains f.name)
    match commonMetadataSchema.metadata.lookup "pandas" with
    | none => none
    | some pandasValue =>
      some { fields := hatsIdxFields ++ inputTruthFields ++ hatsPartitionFields,
             metadata := [("pandas", pandasValue)] }

/-- The construction C3 claims, transcribed from the claim's words: with no
external truth schema, simply the common schema; otherwise the external truth
schema's fields minus the catalog's partition columns, with the partition
columns (and spatial-index column, if present) appended from the common
schema, carrying the truth schema's own metadata. -/
def constructTruthSchemaClaimed (inputTruthSchema : Option PaSchema)
    (commonMetadataSchema : PaSchema) : Option PaSchema :=
  match inputTruthSchema with
  | none => some commonMetadataSchema
  | some truthSchema =>
    let partitionCols := ["Norder", "Dir", "Npix"]
    match partitionCols.mapM (schemaField commonMetadataSchema) with
    | none => none
    | some partitionFields =>
      let appendedFields :=
        if (commonMetadataSchema.fields.map PaField.name).contains SPATIAL_INDEX_COLUMN then
          partitionFields ++ (schemaField commonMetadataSchema SPATIAL_INDEX_COLUMN).toList
        else partitionFields
      some { fields := truthSchema.fields.filter (fun f => !partitionCols.contains f.name) ++
               appendedFields,
             metadata := truthSchema.metadata }

/-- C3 counterexample: a common schema whose metadata holds a key besides
`pandas`.  With no external truth schema, the code keeps only the `pandas`
metadata entry, so the constructed schema is *not* simply the common schema;
with an external truth schema carrying its own metadata, the code again keeps
the common schema's `pandas` entry, not the truth schema's metadata, and
prepends (rather than appends) the spatial-index field. -/
theorem c3_counterexample :
    (constructTruthSchema none
        { fields := [{ name := "a", dtype := "int64" },
                     { name := "Norder", dtype := "uint8" },
                     { name := "Dir", dtype := "uint64" },
                     { name := "Npix", dtype := "uint64" }],
          metadata := [("pandas", "P"), ("extra", "E")] } ≠
      constructTruthSchemaClaimed none
        { fields := [{ name := "a", dtype := "int64" },
                     { name := "Norder", dtype := "uint8" },
                     { name := "Dir", dtype := "uint64" },
                     { name := "Npix", dtype := "uint64" }],
          metadata := [("pandas", "P"), ("extra", "E")] }) ∧
      (constructTruthSchema
          (some { fields := [{ name := "a", dtype := "float64" }],
                  metadata := [("pandas", "T")] })
          { fields := [{ name := SPATIAL_INDEX_COLUMN, dtype := "int64" },
                       { name := "a", dtype := "float64" },
                       { name := "Norder", dtype := "uint8" },
                       { name := "Dir", dtype := "uint64" },
                       { name := "Npix", dtype := "uint64" }],
            metadata := [("pandas", "P")] } ≠
        constructTruthSchemaClaimed
          (some { fields := [{ name := "a", dtype := "float64" }],
                  metadata := [("pandas", "T")] })
          { fields := [{ name := SPATIAL_INDEX_COLUMN, dtype := "int64" },
                       { name := "a", dtype := "float64" },
                       { name := "Norder", dtype := "uint8" },
                       { name := "Dir", dtype := "uint64" },
                       { name := "Npix", dtype := "uint64" }],
            metadata := [("pandas", "P")] }) := by
  constructor <;> decide

/-- The amended construction, stated the way the claim is: case on whether an
external truth schema was given, the truth source being that schema or else
the common schema itself; in both cases the result's fields are the common
schema's spatial-index field (if present) first, then the truth source's
fields minus the partition and spatial-index columns, then the partition
fields from the common schema, and the metadata is exactly the common
schema's `pandas` entry; the construction requires the partition columns and
a `pandas` entry in the common schema. -/
def constructTruthSchemaAmended (inputTruthSchema : Option PaSchema)
    (commonMetadataSchema : PaSchema) : Option PaSchema :=
  match inputTruthSchema with
  | none => rearrangedTruth commonMetadataSchema commonMetadataSchema
  | some truthSchema => rearrangedTruth truthSchema commonMetadataSchema
where
  /-- Shared body of the amended description. -/
  rearrangedTruth (truthSource commonMetadataSchema : PaSchema) : Option PaSchema :=
    let partitionCols := ["Norder", "Dir", "Npix"]
    match partitionCols.mapM (schemaField commonMetadataSchema) with
    | none => none
    | some partitionFields =>
      match commonMetadataSchema.metadata.lookup "pandas" with
      | none => none
      | some pandasValue =>
        let spatialPresent :=
          (commonMetadataSchema.fields.map PaField.name).contains SPATIAL_INDEX_COLUMN
        let idxFields :=
          if spatialPresent then (schemaField commonMetadataSchema SPATIAL_INDEX_COLUMN).toList
          else []
        let excluded :=
          if spatialPresent then partitionCols ++ [SPATIAL_INDEX_COLUMN] else partitionCols
        some { fields := idxFields ++
                 truthSource.fields.filter (fun f => !excluded.contains f.name) ++
                 partitionFields,
               metadata := [("pandas", pandasValue)] }

/-- C3 amended, proved: for every input, the verifier's constructed truth
schema equals the amended description. -/
theorem c3_amended_construct_truth_schema (inputTruthSchema : Option PaSchema)
    (commonMetadataSchema : PaSchema) :
    constructTruthSchema inputTruthSchema commonMetadataSchema =
      constructTruthSchemaAmended inputTruthSchema commonMetadataSchema := by
  cases inputTruthSchema <;>
    simp only [constructTruthSchema, constructTruthSchemaAmended,
      constructTruthSchemaAmended.rearrangedTruth, Option.getD]

/-! ## Margin-cache binning phase
(`hats_import/margin_cache/margin_cache.py`, `generate_margin_cache`)

`generate_margin_cache` waits for the mapping stage, then in its binning phase
computes `total_rows = resume_plan.get_mapping_total()` and raises
`ValueError` when `not total_rows`; only after that does it submit reducing
tasks.  The outcome record carries the reducing tasks submitted, so the error
branch — which carries none — witnesses that no reducing task is submitted on
a zero total. -/

/-- Modelled from the spec: `MarginCachePlan.get_mapping_total` of the
current-generation margin-cache resume plan is not among the provided source
files (only its caller is); per the binning sentence of the spec it sums all
mapping-stage shard row counts. -/
def getMappingTotal (shardRowCounts : List Nat) : Nat := shardRowCounts.sum

/-- Outcome of the binning-and-reducing portion of `generate_margin_cache`:
the binned total and the reducing tasks submitted after binning. -/
structure MarginBinningOutcome where
  totalRows : Nat
  reduceTasksSubmitted : List (Nat × Nat)
deriving DecidableEq, Repr

/-- The binning phase of `generate_margin_cache`, followed by the submission
of the remaining reduce keys: `if not total_rows: raise ValueError(...)`. -/
def generateMarginCacheBinning (shardRowCounts : List Nat)
    (remainingReduceKeys : List (Nat × Nat)) : Except String MarginBinningOutcome :=
  let totalRows := getMappingTotal shardRowCounts
  if totalRows = 0 then
    .error "Margin cache contains no rows. Increase margin size and re-run."
  else .ok { totalRows := totalRows, reduceTasksSubmitted := remainingReduceKeys }

/-- C7: when the sum of all mapping-stage shard row counts is zero, the
binning phase raises a fatal configuration error before any reducing task is
submitted; when the total is positive, the binning phase raises no error and
reducing proceeds. -/
theorem c7_margin_binning_zero_total (shardRowCounts : List Nat)
    (remainingReduceKeys : List (Nat × Nat)) :
    (shardRowCounts.sum = 0 →
      generateMarginCacheBinning shardRowCounts remainingReduceKeys =
        .error "Margin cache contains no rows. Increase margin size and re-run.") ∧
      (0 < shardRowCounts.sum →
        generateMarginCacheBinning shardRowCounts remainingReduceKeys =
          .ok { totalRows := shardRowCounts.sum,
                reduceTasksSubmitted := remainingReduceKeys }) := by
  constructor
  · intro h
    simp [generateMarginCacheBinning, getMappingTotal, h]
  · intro h
    simp [generateMarginCacheBinning, getMappingTotal, Nat.pos_iff_ne_zero.mp h]

/-- Witness for C7: zero shard counts `[0, 0]` raise; positive counts `[3, 2]`
submit the reduce task and bin a total of 5. -/
theorem c7_margin_binning_zero_total_witness :
    (([0, 0] : List Nat).sum = 0 ∧
      generateMarginCacheBinning [0, 0] [(0, 1)] =
        .error "Margin cache contains no rows. Increase margin size and re-run.") ∧
      (0 < ([3, 2] : List Nat).sum ∧
        generateMarginCacheBinning [3, 2] [(0, 1)] =
          .ok { totalRows := ([3, 2] : List Nat).sum, reduceTasksSubmitted := [(0, 1)] }) :=
  ⟨⟨by decide, (c7_margin_binning_zero_total [0, 0] [(0, 1)]).1 (by decide)⟩,
    ⟨by decide, (c7_margin_binning_zero_total [3, 2] [(0, 1)]).2 (by decide)⟩⟩

/-! ## Collection builder materialization
(`hats_import/collection/arguments.py`, `CollectionArguments.get_margin_args`
and `CollectionArguments.get_index_args`)

The builder state keeps the resolved primary-catalog path, the stashed
margin/index kwargs, and the materialized argument lists.  Constructing a
sub-arguments object (`MarginCacheArguments(**kwargs)` /
`IndexArguments(**kwargs)`) validates it and may raise; it is abstracted as a
function into `Except`.  Each call reports how many constructor invocations it
performed, so "validated at most once" is expressible.  On a mid-loop
constructor failure the already-built prefix stays appended to the stashed
list, as `self.margin_args.append(...)` mutates in place. -/

/-- Builder state: primary path plus stashed and materialized
sub-configurations. -/
structure CollState (κ α : Type) where
  newCatalogPath : Option String
  marginKwargs : List κ
  indexKwargs : List κ
  marginArgs : List α
  indexArgs : List α
deriving Repr

/-- The materialization loop: construct each stashed kwargs in order,
stopping at the first failure; returns the arguments built (the appended
prefix on failure) and the failure, if any. -/
def constructLoop {κ α : Type} (construct : κ → Except String α) :
    List κ → List α × Option String
  | [] => ([], none)
  | k :: rest =>
    match construct k with
    | .error e => ([], some e)
    | .ok a =>
      let (built, err) := constructLoop construct rest
      (a :: built, err)

/-- `get_margin_args`: guard on `catalog()` having been called; if
`self.margin_args` is non-empty return it as-is; otherwise run the
materialization loop.  The returned `Nat` counts constructor invocations. -/
def getMarginArgs {κ α : Type} (construct : κ → Except String α)
    (s : CollState κ α) : CollState κ α × Except String (List α) × Nat :=
  if s.newCatalogPath.isNone then
    (s, .error "Must add catalog arguments before fetching margin arguments", 0)
  else if !s.marginArgs.isEmpty then (s, .ok s.marginArgs, 0)
  else
    let (built, err) := constructLoop construct s.marginKwargs
    let sNext := { s with marginArgs := built }
    match err with
    | some e => (sNext, .error e, built.length + 1)
    | none => (sNext, .ok built, built.length)

/-- `get_index_args`: identical shape over the index kwargs. -/
def getIndexArgs {κ α : Type} (construct : κ → Except String α)
    (s : CollState κ α) : CollState κ α × Except String (List α) × Nat :=
  if s.newCatalogPath.isNone then
    (s, .error "Must add catalog arguments before fetching index arguments", 0)
  else if !s.indexArgs.isEmpty then (s, .ok s.indexArgs, 0)
  else
    let (built, err) := constructLoop construct s.indexKwargs
    let sNext := { s with indexArgs := built }
    match err with
    | some e => (sNext, .error e, built.length + 1)
    | none => (sNext, .ok built, built.length)

theorem constructLoop_ok_length {κ α : Type} (construct : κ → Except String α) :
    ∀ (ks : List κ) (built : List α),
      constructLoop construct ks = (built, none) → built.length = ks.length := by
  intro ks
  induction ks with
  | nil => intro built h; cases h; rfl
  | cons k rest ih =>
    intro built h
    simp only [constructLoop] at h
    cases hc : construct k with
    | error e => rw [hc] at h; cases h
    | ok a =>
      rw [hc] at h
      cases hr : constructLoop construct rest with
      | mk builtRest err =>
        rw [hr] at h
        cases err with
        | none =>
          cases h
          simp [ih builtRest hr]
        | some e => cases h

/-- C9: once `catalog()` has been called, a successful `get_margin_args` /
`get_index_args` call is a fixed point — every repeated call returns the same
already-validated list, leaves the state unchanged, and performs zero further
constructor invocations (so each stashed sub-configuration is constructed and
validated at most once across all calls). -/
theorem c9_get_args_idempotent {κ α : Type} (construct : κ → Except String α)
    (s : CollState κ α) (hcat : s.newCatalogPath.isNone = false) :
    (∀ (l : List α) (s₁ : CollState κ α) (k : Nat),
      getMarginArgs construct s = (s₁, .ok l, k) →
        getMarginArgs construct s₁ = (s₁, .ok l, 0)) ∧
      (∀ (l : List α) (s₁ : CollState κ α) (k : Nat),
        getIndexArgs construct s = (s₁, .ok l, k) →
          getIndexArgs construct s₁ = (s₁, .ok l, 0)) := by
  constructor
  · intro l s₁ k h
    simp only [getMarginArgs, hcat, Bool.false_eq_true, if_false] at h
    by_cases hm : s.marginArgs.isEmpty
    · simp only [hm, Bool.not_true, Bool.false_eq_true, if_false] at h
      cases hl : constructLoop construct s.marginKwargs with
      | mk built err =>
        rw [hl] at h
        cases err with
        | some e => cases h
        | none =>
          cases h
          by_cases hb : built.isEmpty
          · have hb' : built = [] := by
              cases built with
              | nil => rfl
              | cons a t => cases hb
            have hks : s.marginKwargs = [] := by
              have := constructLoop_ok_length construct s.marginKwargs built hl
              rw [hb'] at this
              cases hk : s.marginKwargs with
              | nil => rfl
              | cons a t => rw [hk] at this; cases this
            simp [getMarginArgs, hcat, hks, hb', constructLoop]
          · simp only [getMarginArgs, hcat, Bool.false_eq_true, if_false, hb,
              Bool.not_false, if_true]
    · simp only [hm, Bool.not_false, if_true] at h
      cases h
      simp only [getMarginArgs, hcat, Bool.false_eq_true, if_false, hm,
        Bool.not_false, if_true]
  · intro l s₁ k h
    simp only [getIndexArgs, hcat, Bool.false_eq_true, if_false] at h
    by_cases hm : s.indexArgs.isEmpty
    · simp only [hm, Bool.not_true, Bool.false_eq_true, if_false] at h
      cases hl : constructLoop construct s.indexKwargs with
      | mk built err =>
        rw [hl] at h
        cases err with
        | some e => cases h
        | none =>
          cases h
          by_cases hb : built.isEmpty
          · have hb' : built = [] := by
              cases built with
              | nil => rfl
              | cons a t => cases hb
            have hks : s.indexKwargs = [] := by
              have := constructLoop_ok_length construct s.indexKwargs built hl
              rw [hb'] at this
              cases hk : s.indexKwargs with
              | nil => rfl
              | cons a t => rw [hk] at this; cases this
            simp [getIndexArgs, hcat, hks, hb', constructLoop]
          · simp only [getIndexArgs, hcat, Bool.false_eq_true, if_false, hb,
              Bool.not_false, if_true]
    · simp only [hm, Bool.not_false, if_true] at h
      cases h
      simp only [getIndexArgs, hcat, Bool.false_eq_true, if_false, hm,
        Bool.not_false, if_true]

/-- Witness for C9 with two margin kwargs and one index kwargs over
`construct = fun k => .ok (k + 1)`: the first calls build `[2, 3]` and `[6]`
with 2 and 1 constructions; the repeated calls return the same lists with 0
constructions. -/
theorem c9_get_args_idempotent_witness :
    ((some "primary" : Option String).isNone = false) ∧
      getMarginArgs (fun k => .ok (k + 1) : Nat → Except String Nat)
          ⟨some "primary", [1, 2], [5], [], []⟩ =
        (⟨some "primary", [1, 2], [5], [2, 3], []⟩, .ok [2, 3], 2) ∧
      getMarginArgs (fun k => .ok (k + 1) : Nat → Except String Nat)
          ⟨some "primary", [1, 2], [5], [2, 3], []⟩ =
        (⟨some "primary", [1, 2], [5], [2, 3], []⟩, .ok [2, 3], 0) ∧
      getIndexArgs (fun k => .ok (k + 1) : Nat → Except String Nat)
          ⟨some "primary", [1, 2], [5], [2, 3], []⟩ =
        (⟨some "primary", [1, 2], [5], [2, 3], [6]⟩, .ok [6], 1) ∧
      getIndexArgs (fun k => .ok (k + 1) : Nat → Except String Nat)
          ⟨some "primary", [1, 2], [5], [2, 3], [6]⟩ =
        (⟨some "primary", [1, 2], [5], [2, 3], [6]⟩, .ok [6], 0) :=
  ⟨rfl, rfl,
    (c9_get_args_idempotent (fun k => .ok (k + 1))
      ⟨some "primary", [1, 2], [5], [], []⟩ rfl).1 [2, 3] _ 2 rfl,
    rfl,
    (c9_get_args_idempotent (fun k => .ok (k + 1))
      ⟨some "primary", [1, 2], [5], [2, 3], []⟩ rfl).2 [6] _ 1 rfl⟩

/-! ## Nest-light-curve progress discovery
(`hats_import/nest_light_curves/resume_plan.py`,
`NestLightCurvePlan.get_sources_to_count` and
`NestLightCurvePlan.combine_partial_results`)

Both functions glob `*.csv` under `tmp_path` and run
`re.compile(r"(\d+)_(\d+).csv").match(path.name)`.  `get_sources_to_count`
calls `.group(1, 2)` on the match object unguarded, so a non-matching name
raises `AttributeError`; `combine_partial_results` guards with
`if (matches := ...) is not None` and so skips non-matching names.  The
pattern is matched from the start of the name, `.` is any character, and the
match is not anchored at the end; the greedy second `(\d+)` backtracks. -/

/-- Does `.csv` (any character, then `c`, `s`, `v`) match at the head of the
remaining characters? -/
def dotCsvAt : List Char → Bool
  | _ :: 'c' :: 's' :: 'v' :: _ => true
  | _ => false

/-- Numeric value of a digit run, as Python's `int` reads it. -/
def digitsToNat (ds : List Char) : Nat :=
  ds.foldl (fun acc c => acc * 10 + (c.toNat - Char.toNat '0')) 0

/-- Backtracking worker for the second `(\d+)`, structurally recursive on a
fuel bounding the number of give-backs (the digit run's length suffices). -/
def matchSecondGroupAux : Nat → List Char → List Char → Option (List Char)
  | _, [], _ => none
  | 0, _ :: _, _ => none
  | fuel + 1, x :: xs, rest =>
    if dotCsvAt rest then some (x :: xs)
    else matchSecondGroupAux fuel (x :: xs).dropLast
      ((x :: xs).getLast (List.cons_ne_nil x xs) :: rest)

/-- The greedy second `(\d+)` followed by `.csv`: starting from the maximal
digit run `ds`, give characters back one at a time until `.csv` matches at
the remainder; fail when the group would become empty. -/
def matchSecondGroup (ds rest : List Char) : Option (List Char) :=
  matchSecondGroupAux ds.length ds rest

/-- `re.match(r"(\d+)_(\d+).csv", name)`, returning the two digit groups as
numbers.  The first `(\d+)` is effectively maximal (a shorter run would face
another digit where `_` is required). -/
def matchCountFile (name : String) : Option (Nat × Nat) :=
  let cs := name.toList
  let firstDigits := cs.takeWhile Char.isDigit
  if firstDigits.isEmpty then none
  else
    match cs.drop firstDigits.length with
    | '_' :: rest =>
      let secondDigits := rest.takeWhile Char.isDigit
      match matchSecondGroup secondDigits (rest.drop secondDigits.length) with
      | some ds => some (digitsToNat firstDigits, digitsToNat ds)
      | none => none
    | _ => none

/-- The counted-pixel discovery of `get_sources_to_count`: an unguarded
`.group` call on each `*.csv` name — `AttributeError` on the first name the
pattern does not match. -/
def countedPixelTuples : List String → Except String (List (Nat × Nat))
  | [] => .ok []
  | n :: rest =>
    match matchCountFile n with
    | none => .error "AttributeError: NoneType object has no attribute group"
    | some p =>
      match countedPixelTuples rest with
      | .ok ps => .ok (p :: ps)
      | .error e => .error e

/-- `get_sources_to_count`: discover counted pixels from the `*.csv` names,
then return the object-map keys not yet counted. -/
def getSourcesToCount (objectMapKeys : List (Nat × Nat)) (csvNames : List String) :
    Except String (List (Nat × Nat)) :=
  match countedPixelTuples csvNames with
  | .error e => .error e
  | .ok counted => .ok (objectMapKeys.filter (fun p => !counted.contains p))

/-- The counted-pixel discovery of `combine_partial_results`: the walrus-guarded
comprehension keeps only the names the pattern matches. -/
def combineCountedPixels (csvNames : List String) : List (Nat × Nat) :=
  csvNames.filterMap matchCountFile

theorem countedPixelTuples_ok_of_matches :
    ∀ (csvNames : List String), (∀ n ∈ csvNames, (matchCountFile n).isSome) →
      countedPixelTuples csvNames = .ok (csvNames.filterMap matchCountFile) := by
  intro csvNames
  induction csvNames with
  | nil => intro _; rfl
  | cons n rest ih =>
    intro h
    have hn := h n (List.mem_cons_self n rest)
    cases hm : matchCountFile n with
    | none => rw [hm] at hn; cases hn
    | some p =>
      simp only [countedPixelTuples, hm, ih fun m hm => h m (List.mem_cons_of_mem n hm),
        List.filterMap_cons, Option.isSome]

theorem countedPixelTuples_error_of_stray :
    ∀ (csvNames : List String) (n : String), n ∈ csvNames → matchCountFile n = none →
      countedPixelTuples csvNames =
        .error "AttributeError: NoneType object has no attribute group" := by
  intro csvNames
  induction csvNames with
  | nil => intro n h; cases h
  | cons m rest ih =>
    intro n h hn
    rcases List.mem_cons.mp h with h | h
    · subst h
      simp only [countedPixelTuples, hn]
    · cases hm : matchCountFile m with
      | none => simp only [countedPixelTuples, hm]
      | some p =>
        simp only [countedPixelTuples, hm, ih n h hn]

/-- C10: `get_sources_to_count` succeeds when every `*.csv` name under
`tmp_path` matches `(\d+)_(\d+).csv`, and raises on any stray `*.csv` whose
name does not match — instead of ignoring the file — while the counted-pixel
discovery of `combine_partial_results` on the same directory skips exactly
the non-matching names. -/
theorem c10_stray_csv_crash (objectMapKeys : List (Nat × Nat)) (csvNames : List String) :
    ((∀ n ∈ csvNames, (matchCountFile n).isSome) →
      getSourcesToCount objectMapKeys csvNames =
        .ok (objectMapKeys.filter (fun p => !(combineCountedPixels csvNames).contains p))) ∧
      ((∃ n ∈ csvNames, matchCountFile n = none) →
        getSourcesToCount objectMapKeys csvNames =
          .error "AttributeError: NoneType object has no attribute group") ∧
      combineCountedPixels csvNames =
        combineCountedPixels (csvNames.filter (fun n => (matchCountFile n).isSome)) := by
  refine ⟨?_, ?_, ?_⟩
  · intro h
    simp only [getSourcesToCount, countedPixelTuples_ok_of_matches csvNames h,
      combineCountedPixels]
  · rintro ⟨n, hmem, hnone⟩
    simp only [getSourcesToCount, countedPixelTuples_error_of_stray csvNames n hmem hnone]
  · induction csvNames with
    | nil => rfl
    | cons n rest ih =>
      cases hm : matchCountFile n with
      | none =>
        simp only [combineCountedPixels, List.filterMap_cons, hm, List.filter_cons,
          Option.isSome_none, Bool.false_eq_true, if_false] at ih ⊢
        exact ih
      | some p =>
        simp only [combineCountedPixels, List.filterMap_cons, hm, List.filter_cons,
          Option.isSome_some, if_true] at ih ⊢
        rw [ih]

/-- Witness for C10: a directory holding only `0_11.csv` leaves `(0, 4)`
remaining; adding the stray `foo.csv` crashes the discovery, while the
combine-side discovery still sees exactly `(0, 11)`. -/
theorem c10_stray_csv_crash_witness :
    (getSourcesToCount [(0, 11), (0, 4)] ["0_11.csv"] =
        .ok ([(0, 11), (0, 4)].filter
          (fun p => !(combineCountedPixels ["0_11.csv"]).contains p))) ∧
      (getSourcesToCount [(0, 11), (0, 4)] ["0_11.csv", "foo.csv"] =
        .error "AttributeError: NoneType object has no attribute group") ∧
      combineCountedPixels ["0_11.csv", "foo.csv"] =
        combineCountedPixels (["0_11.csv", "foo.csv"].filter
          (fun n => (matchCountFile n).isSome)) :=
  ⟨(c10_stray_csv_crash [(0, 11), (0, 4)] ["0_11.csv"]).1 (by decide),
    (c10_stray_csv_crash [(0, 11), (0, 4)] ["0_11.csv", "foo.csv"]).2.1
      ⟨"foo.csv", by decide, by decide⟩,
    (c10_stray_csv_crash [(0, 11), (0, 4)] ["0_11.csv", "foo.csv"]).2.2⟩

end HatsImport
